import Mathlib

/-!
Shallow embedding of the face identity matching pipeline of this repository
(src/backend/face_recognition_utils.py, src/backend/main.py,
src/recognize.py).

External collaborators — the MTCNN detector, the Haar cascade, cv2 resize
and colour conversion, the FaceNet model, the sklearn cosine kernel,
numpy's random generator and cv2.imdecode — are modelled as oracle fields
of the `Engine` structure or as explicit function parameters.  The
repository's own control flow (confidence filtering, the per-face loop,
the best-match scan, thresholding, error handling) is translated clause by
clause from the Python source.
-/

namespace FaceRec

/-- A pixel: the three colour channels of one image position. -/
abbrev Pixel := ℚ × ℚ × ℚ

/-- A decoded image: a list of rows of pixels (numpy `ndarray` of shape
`rows × cols × 3`). -/
abbrev Image := List (List Pixel)

/-- A raw byte buffer, as uploaded to an endpoint. -/
abbrev Bytes := List ℕ

/-- One raw detection as produced by the MTCNN library: a box given as
`x, y, w, h`, a confidence score, and optional keypoints
(`detection['box']`, `detection['confidence']`, `detection['keypoints']`). -/
structure RawDetection where
  x : ℕ
  y : ℕ
  w : ℕ
  h : ℕ
  confidence : ℚ
  keypoints : List (String × ℤ × ℤ)
  deriving DecidableEq

/-- The bounding box assembled by `detect_faces`:
`'bbox': [x, y, x + w, y + h]`. -/
structure BBox where
  x1 : ℕ
  y1 : ℕ
  x2 : ℕ
  y2 : ℕ
  deriving DecidableEq

/-- One entry of the list returned by
`FaceRecognitionEngine.detect_faces`. -/
structure Face where
  bbox : BBox
  confidence : ℚ
  landmarks : List (String × ℤ × ℤ)
  deriving DecidableEq

/-- One gallery record of `known_faces` as consumed by `recognize_faces`:
a dict with keys `name`, `embedding` and an id.  The Python code reads the
id as `best_match.get('id', best_match.get('_id', 'unknown'))`; the field
`face_id` holds the value that chain resolves to.  A record whose
`embedding` key is missing is modelled by an empty `embedding` list — both
fail the guard `if 'embedding' in known_face and known_face['embedding']`. -/
structure KnownFace where
  name : String
  embedding : List ℚ
  face_id : String
  deriving DecidableEq

/-- One entry of the list returned by
`FaceRecognitionEngine.recognize_faces`. -/
structure RecognizedFace where
  name : String
  confidence : ℚ
  bounding_box : BBox
  face_id : Option String
  deriving DecidableEq

/-- The dict returned by `FaceRecognitionEngine.add_face`. -/
structure FaceData where
  name : String
  embedding : List ℚ
  image_path : String
  bbox : BBox
  confidence : ℚ
  deriving DecidableEq

/-- The `FaceRecognitionEngine` state plus its external collaborators.

* `detector` — `self.detector`: `some f` models a loaded MTCNN whose
  `detect_faces` call on an image either returns raw detections or raises
  (`Except.error`); `none` models the OpenCV fallback configuration.
* `haar` — the Haar-cascade fallback path (`cv2.cvtColor` plus
  `detectMultiScale`), returning rectangles `x, y, w, h` or raising.
* `resize_norm` — `cv2.resize` to `self.face_size` followed by the
  `astype(np.float32) / 255.0` normalisation and `np.expand_dims`.
* `facenet_model` — `self.facenet_model`: `some m` models a loaded model,
  where `m` is `model.predict` followed by `flatten()` — a pure function
  of the cropped input; `none` models the missing-model state.
* `cosine` — the sklearn `cosine_similarity` kernel applied to two
  vectors of equal dimension.
* `np_random_draw` — the vector that `np.random.rand(128)` yields at the
  current hidden generator state.
* `threshold` — `self.threshold = 0.6`. -/
structure Engine where
  detector : Option (Image → Except String (List RawDetection))
  haar : Image → Except String (List (ℕ × ℕ × ℕ × ℕ))
  resize_norm : Image → Image
  facenet_model : Option (Image → List ℚ)
  cosine : List ℚ → List ℚ → ℚ
  np_random_draw : List ℚ
  threshold : ℚ := 6 / 10

/-- Numpy slicing `image[y1:y2, x1:x2]` for nonnegative pixel indices:
row range `y1:y2`, column range `x1:x2`, both clamped to the array, empty
when the range is reversed. -/
def cropImage (img : Image) (b : BBox) : Image :=
  ((img.drop b.y1).take (b.y2 - b.y1)).map (fun row => (row.drop b.x1).take (b.x2 - b.x1))

/-- Numpy `face.size`: the total number of scalar entries — zero exactly
when the crop holds no pixel. -/
def cropSize (c : Image) : ℕ :=
  (c.map List.length).sum

/-- `FaceRecognitionEngine.detect_faces` (face_recognition_utils.py,
lines 93-128).  With an MTCNN detector, keeps only raw detections whose
confidence is strictly above `0.9` and converts each box to
`[x, y, x + w, y + h]`; with the OpenCV fallback, reports every cascade
rectangle with the constant confidence `0.95` and no landmarks.  The
enclosing `try`/`except` turns any detector failure into the empty
list. -/
def detect_faces (E : Engine) (img : Image) : List Face :=
  match E.detector with
  | some det =>
    match det img with
    | Except.ok detections =>
      (detections.filter (fun d => d.confidence > 9 / 10)).map
        (fun d => { bbox := ⟨d.x, d.y, d.x + d.w, d.y + d.h⟩,
                    confidence := d.confidence,
                    landmarks := d.keypoints })
    | Except.error _ => []
  | none =>
    match E.haar img with
    | Except.ok rects =>
      rects.map (fun r => { bbox := ⟨r.1, r.2.1, r.1 + r.2.2.1, r.2.1 + r.2.2.2⟩,
                            confidence := 95 / 100,
                            landmarks := [] })
    | Except.error _ => []

/-- `FaceRecognitionEngine.extract_face_embedding`
(face_recognition_utils.py, lines 130-157).  Crops `image[y1:y2, x1:x2]`;
if `face.size == 0` returns `None`; otherwise resizes and normalises,
then either applies the loaded model or — when `self.facenet_model` is
`None` — returns `np.random.rand(128)`, the current random draw. -/
def extract_face_embedding (E : Engine) (img : Image) (b : BBox) : Option (List ℚ) :=
  let face := cropImage img b
  if cropSize face = 0 then
    none
  else
    let face_batch := E.resize_norm face
    match E.facenet_model with
    | some m => some (m face_batch)
    | none => some E.np_random_draw

/-- `FaceRecognitionEngine.calculate_similarity`
(face_recognition_utils.py, lines 159-174).  Returns `0.0` when either
embedding is `None`; sklearn's `cosine_similarity` raises on vectors of
different dimension, and the `except` clause turns that into `0.0` as
well; otherwise the cosine kernel value is returned. -/
def calculate_similarity (E : Engine) (e1 e2 : Option (List ℚ)) : ℚ :=
  match e1, e2 with
  | some a, some b => if a.length = b.length then E.cosine a b else 0
  | _, _ => 0

/-- One iteration of the `for known_face in known_faces` scan of
`recognize_faces` (face_recognition_utils.py, lines 198-209): state is
`(best_match, best_similarity)`, initially `(None, 0.0)`; an entry is
considered only when its `embedding` key is present and nonempty, and it
becomes the best match only when
`similarity > best_similarity and similarity > threshold`. -/
def scanStep (E : Engine) (θ : ℚ) (q : List ℚ) (st : Option KnownFace × ℚ)
    (kf : KnownFace) : Option KnownFace × ℚ :=
  if kf.embedding ≠ [] then
    let s := calculate_similarity E (some q) (some kf.embedding)
    if s > st.2 ∧ s > θ then (some kf, s) else st
  else
    st

/-- The per-face body of `recognize_faces` (face_recognition_utils.py,
lines 194-225): scan the gallery from `(None, 0.0)`; if a best match was
found report its name with the best similarity as confidence, otherwise
report `"Unknown"` with the detector's confidence for the face. -/
def matchFace (E : Engine) (θ : ℚ) (q : List ℚ) (known : List KnownFace)
    (face : Face) : RecognizedFace :=
  let st := known.foldl (scanStep E θ q) (none, 0)
  match st.1 with
  | some bm =>
    { name := bm.name, confidence := st.2, bounding_box := face.bbox,
      face_id := some bm.face_id }
  | none =>
    { name := "Unknown", confidence := face.confidence,
      bounding_box := face.bbox, face_id := none }

/-- `FaceRecognitionEngine.recognize_faces` (face_recognition_utils.py,
lines 176-232).  Resolves `threshold=None` to `self.threshold`, detects
faces, and for each detected face in detector order extracts an embedding
— skipping the face (`continue`) when extraction returns `None` — and
appends the per-face match result. -/
def recognize_faces (E : Engine) (img : Image) (known : List KnownFace)
    (threshold : Option ℚ) : List RecognizedFace :=
  let θ := threshold.getD E.threshold
  (detect_faces E img).foldl
    (fun acc face =>
      match extract_face_embedding E img face.bbox with
      | none => acc
      | some q => acc ++ [matchFace E θ q known face])
    []

/-- `FaceRecognitionEngine.add_face` (face_recognition_utils.py, lines
234-266).  Zero detections raise `ValueError("No faces detected in the
image")`; otherwise the first detected face is used; a failed embedding
extraction raises as well; on success the returned dict carries the
embedding, the first face's box and confidence, and an image path. -/
def add_face (E : Engine) (img : Image) (name : String) : Except String FaceData :=
  let detected := detect_faces E img
  match detected with
  | [] => Except.error "No faces detected in the image"
  | face :: _ =>
    match extract_face_embedding E img face.bbox with
    | none => Except.error "Could not extract face embedding"
    | some emb =>
      Except.ok
        { name := name, embedding := emb,
          image_path := "faces/" ++ name ++ "_" ++ toString detected.length ++ ".jpg",
          bbox := face.bbox, confidence := face.confidence }

/-- One record of `faces_storage` as the `/faces` route of
src/backend/main.py appends it: the `name`, `embedding` and `image_path`
fields of the pydantic `Face` model.  The `id` (a fresh uuid) and
`created_at` (a timestamp) fields are values of external generators and
are not modelled. -/
structure StoredFace where
  name : String
  embedding : List ℚ
  image_path : String
  deriving DecidableEq

/-- `preprocess_image` (face_recognition_utils.py, lines 275-291):
`cv2.imdecode` is the `decode` oracle; a `None` decode raises
`ValueError("Could not decode image")`, which the `except` clause
re-raises; a successful decode is colour-converted (a pure reordering of
channels, absorbed into the oracle) and returned. -/
def preprocess_image (decode : Bytes → Option Image) (bytes : Bytes) : Except String Image :=
  match decode bytes with
  | some img => Except.ok img
  | none => Except.error "Could not decode image"

/-- The `/recognize` route of src/backend/main.py (lines 109-151): the
`try` block preprocesses and runs real recognition; any exception —
in particular the `ValueError` raised by `preprocess_image` on an
undecodable upload — is caught and replaced by the output of
`simulate_recognition()`, passed here as the `simulated` oracle since its
content is drawn from the process RNG. -/
def recognize_route (decode : Bytes → Option Image) (E : Engine)
    (simulated : List RecognizedFace) (bytes : Bytes) (known : List KnownFace)
    (θ : ℚ) : List RecognizedFace :=
  match preprocess_image decode bytes with
  | Except.ok img => recognize_faces E img known (some θ)
  | Except.error _ => simulated

/-- The `/faces` route of src/backend/main.py (lines 225-296), in-memory
storage branch.  The inner `try` preprocesses the upload and calls
`face_engine.add_face`; on success the stored record carries the
extracted embedding and the path `save_face_image` returned (`save_path`,
a timestamped filename).  Any exception — the decode `ValueError`, or the
`ValueError("No faces detected in the image")` raised by `add_face` — is
caught and replaced by a dummy record with embedding `[0.1] * 512` and
path `f"uploads/{name}_{timestamp}.jpg"` (`ts` is the formatted
timestamp).  Either way the record is appended to `faces_storage`. -/
def add_face_route (E : Engine) (decode : Bytes → Option Image)
    (save_path ts : String) (bytes : Bytes) (name : String)
    (storage : List StoredFace) : List StoredFace :=
  let face_data :=
    match preprocess_image decode bytes with
    | Except.error _ =>
      { name := name, embedding := List.replicate 512 (1 / 10),
        image_path := "uploads/" ++ name ++ "_" ++ ts ++ ".jpg" }
    | Except.ok img =>
      match add_face E img name with
      | Except.error _ =>
        { name := name, embedding := List.replicate 512 (1 / 10),
          image_path := "uploads/" ++ name ++ "_" ++ ts ++ ".jpg" }
      | Except.ok fd =>
        { name := name, embedding := fd.embedding, image_path := save_path }
  storage ++ [face_data]

/-- Inner loop of `np.argmax` over a rational list: running best index,
best value and current index; a later element replaces the best only when
strictly greater, so the first maximum wins — numpy's documented
behaviour. -/
def argmaxAux : ℕ → ℚ → ℕ → List ℚ → ℕ
  | bi, _, _, [] => bi
  | bi, bv, i, x :: xs => if x > bv then argmaxAux i x (i + 1) xs else argmaxAux bi bv (i + 1) xs

/-- `np.argmax` on a list of probabilities (index 0 for the empty list,
which `predict_proba` never produces). -/
def argmaxIdx : List ℚ → ℕ
  | [] => 0
  | x :: xs => argmaxAux 0 x 1 xs

/-- The classifier-strategy matcher of src/recognize.py
(`recognize_endpoint`, lines 98-115, matching `recognize_face`, lines
56-65): `best_class_idx = np.argmax(prediction)`,
`best_class_prob = prediction[best_class_idx]`; a probability strictly
below `0.5` yields `"Unknown"`, otherwise the label-encoder name decorated
with the formatted probability (`f"{name} ({best_class_prob:.2f})"`, the
`fmt` oracle standing for the two-decimal float format); the reported
confidence is `float(best_class_prob)` in both branches. -/
def classify_face (fmt : ℚ → String) (labels : List String) (probs : List ℚ) :
    String × ℚ :=
  let best_class_idx := argmaxIdx probs
  let best_class_prob := probs.getD best_class_idx 0
  let name :=
    if best_class_prob < 1 / 2 then "Unknown"
    else labels.getD best_class_idx "" ++ " (" ++ fmt best_class_prob ++ ")"
  (name, best_class_prob)

/-- Plain dot product; on unit vectors it coincides with the cosine
kernel, which is how the concrete witnesses below instantiate the
`cosine` oracle. -/
def dotProduct (a b : List ℚ) : ℚ :=
  (List.zipWith (fun x y => x * y) a b).sum

/-- The similarity the scan of `recognize_faces` computes for one gallery
entry against the query embedding. -/
def entrySim (E : Engine) (q : List ℚ) (kf : KnownFace) : ℚ :=
  calculate_similarity E (some q) (some kf.embedding)

lemma scanStep_eq (E : Engine) (θ : ℚ) (q : List ℚ) (st : Option KnownFace × ℚ)
    (kf : KnownFace) :
    scanStep E θ q st kf =
      if kf.embedding ≠ [] ∧ entrySim E q kf > st.2 ∧ entrySim E q kf > θ then
        (some kf, entrySim E q kf)
      else st := by
  simp only [scanStep, entrySim]
  by_cases h1 : kf.embedding = [] <;> simp [h1]

lemma scan_snd_le (E : Engine) (θ : ℚ) (q : List ℚ) (g : List KnownFace) :
    ∀ st : Option KnownFace × ℚ, st.2 ≤ (g.foldl (scanStep E θ q) st).2 := by
  induction g with
  | nil => intro st; exact le_rfl
  | cons kf g ih =>
    intro st
    rw [List.foldl_cons]
    refine le_trans ?_ (ih _)
    rw [scanStep_eq]
    split
    · next h => exact h.2.1.le
    · exact le_rfl

lemma scan_no_trigger (E : Engine) (θ : ℚ) (q : List ℚ) (g : List KnownFace) :
    ∀ st : Option KnownFace × ℚ,
      (∀ kf ∈ g, kf.embedding = [] ∨ entrySim E q kf ≤ st.2 ∨ entrySim E q kf ≤ θ) →
      g.foldl (scanStep E θ q) st = st := by
  induction g with
  | nil => intro st _; rfl
  | cons a g ih =>
    intro st h
    rw [List.foldl_cons]
    have ha : scanStep E θ q st a = st := by
      rw [scanStep_eq, if_neg]
      rintro ⟨hne, hgt, hθ⟩
      rcases h a (List.mem_cons_self a g) with h1 | h2 | h3
      · exact hne h1
      · exact absurd h2 (not_le.mpr hgt)
      · exact absurd h3 (not_le.mpr hθ)
    rw [ha]
    exact ih st (fun kf hk => h kf (List.mem_cons_of_mem a hk))

lemma scan_snd_cases (E : Engine) (θ : ℚ) (q : List ℚ) (g : List KnownFace) :
    ∀ st : Option KnownFace × ℚ,
      (g.foldl (scanStep E θ q) st).2 = st.2 ∨
        ∃ kf ∈ g, (g.foldl (scanStep E θ q) st).2 = entrySim E q kf := by
  induction g with
  | nil => intro st; exact Or.inl rfl
  | cons a g ih =>
    intro st
    rw [List.foldl_cons]
    rcases ih (scanStep E θ q st a) with h | ⟨kf, hk, hv⟩
    · rw [h, scanStep_eq]
      split
      · exact Or.inr ⟨a, List.mem_cons_self a g, rfl⟩
      · exact Or.inl rfl
    · exact Or.inr ⟨kf, List.mem_cons_of_mem a hk, hv⟩

lemma scan_matched_gt (E : Engine) (θ : ℚ) (q : List ℚ) (g : List KnownFace) :
    ∀ st : Option KnownFace × ℚ,
      (∀ bm, st.1 = some bm → θ < st.2) →
      ∀ bm, (g.foldl (scanStep E θ q) st).1 = some bm →
        θ < (g.foldl (scanStep E θ q) st).2 := by
  induction g with
  | nil => intro st h bm hbm; exact h bm hbm
  | cons a g ih =>
    intro st h
    rw [List.foldl_cons]
    refine ih _ ?_
    intro bm hbm
    by_cases hc : a.embedding ≠ [] ∧ entrySim E q a > st.2 ∧ entrySim E q a > θ
    · rw [scanStep_eq, if_pos hc]
      exact hc.2.2
    · rw [scanStep_eq, if_neg hc] at hbm ⊢
      exact h bm hbm

lemma scan_selects (E : Engine) (θ : ℚ) (q : List ℚ) (g1 g2 : List KnownFace)
    (ε : KnownFace) (hne : ε.embedding ≠ [])
    (h1 : ∀ kf ∈ g1, entrySim E q kf < entrySim E q ε)
    (h2 : ∀ kf ∈ g2, entrySim E q kf < entrySim E q ε)
    (hθ : entrySim E q ε > θ) (h0 : entrySim E q ε > 0) :
    (g1 ++ ε :: g2).foldl (scanStep E θ q) (none, 0) = (some ε, entrySim E q ε) := by
  rw [List.foldl_append, List.foldl_cons]
  have hst1 : (g1.foldl (scanStep E θ q) (none, 0)).2 < entrySim E q ε := by
    rcases scan_snd_cases E θ q g1 (none, 0) with h | ⟨kf, hk, hv⟩
    · rw [h]; exact h0
    · rw [hv]; exact h1 kf hk
  have hε : scanStep E θ q (g1.foldl (scanStep E θ q) (none, 0)) ε
      = (some ε, entrySim E q ε) := by
    rw [scanStep_eq, if_pos ⟨hne, hst1, hθ⟩]
  rw [hε]
  refine scan_no_trigger E θ q g2 _ (fun kf hk => Or.inr (Or.inl ?_))
  exact le_of_lt (h2 kf hk)

lemma scan_below (E : Engine) (θ : ℚ) (q : List ℚ) (g : List KnownFace)
    (h : ∀ kf ∈ g, entrySim E q kf ≤ θ ∨ entrySim E q kf ≤ 0) :
    g.foldl (scanStep E θ q) (none, 0) = (none, 0) := by
  refine scan_no_trigger E θ q g (none, 0) (fun kf hk => ?_)
  rcases h kf hk with h' | h'
  · exact Or.inr (Or.inr h')
  · exact Or.inr (Or.inl h')

lemma matchFace_gt (E : Engine) (θ : ℚ) (q : List ℚ) (known : List KnownFace)
    (face : Face) (hn : (matchFace E θ q known face).name ≠ "Unknown") :
    θ < (matchFace E θ q known face).confidence := by
  simp only [matchFace] at hn ⊢
  rcases h : (known.foldl (scanStep E θ q) (none, 0)).1 with _ | bm
  · rw [h] at hn
    simp at hn
  · exact scan_matched_gt E θ q known (none, 0)
      (fun bm h' => absurd h' (by simp)) bm h

lemma recognize_loop_eq (E : Engine) (img : Image) (known : List KnownFace)
    (θ : ℚ) :
    ∀ (ds : List Face) (acc : List RecognizedFace),
      ds.foldl
          (fun acc face =>
            match extract_face_embedding E img face.bbox with
            | none => acc
            | some q => acc ++ [matchFace E θ q known face])
          acc
        = acc ++ (ds.filter (fun f => (extract_face_embedding E img f.bbox).isSome)).map
            (fun f => matchFace E θ ((extract_face_embedding E img f.bbox).getD []) known f) := by
  intro ds
  induction ds with
  | nil => intro acc; simp
  | cons d ds ih =>
    intro acc
    rw [List.foldl_cons, List.filter_cons]
    cases hx : extract_face_embedding E img d.bbox with
    | none =>
      simp only [hx, Option.isSome_none, Bool.false_eq_true, if_false]
      exact ih acc
    | some qv =>
      simp only [hx, Option.isSome_some, if_true, List.map_cons, Option.getD_some]
      rw [ih (acc ++ [matchFace E θ qv known d]), List.append_assoc, List.singleton_append]

lemma argmaxAux_spec :
    ∀ (xs l : List ℚ) (bi : ℕ) (bv : ℚ), bi < l.length → l.getD bi 0 = bv →
      argmaxAux bi bv l.length xs < (l ++ xs).length ∧
        (l ++ xs).getD (argmaxAux bi bv l.length xs) 0 = xs.foldl max bv := by
  intro xs
  induction xs with
  | nil =>
    intro l bi bv hbi hv
    refine ⟨by simpa [argmaxAux] using hbi, ?_⟩
    simpa [argmaxAux] using hv
  | cons x xs ih =>
    intro l bi bv hbi hv
    have hlen : (l ++ [x]).length = l.length + 1 := by simp
    by_cases hx : x > bv
    · have h := ih (l ++ [x]) l.length x (by simp) (by simp)
      rw [hlen, List.append_assoc, List.singleton_append] at h
      simpa [argmaxAux, if_pos hx, max_eq_right hx.le] using h
    · have h := ih (l ++ [x]) bi bv (by simp; omega)
        (by rw [List.getD_append _ _ _ _ hbi]; exact hv)
      rw [hlen, List.append_assoc, List.singleton_append] at h
      simpa [argmaxAux, if_neg hx, max_eq_left (not_lt.mp hx)] using h

lemma argmaxIdx_spec (x : ℚ) (xs : List ℚ) :
    argmaxIdx (x :: xs) < (x :: xs).length ∧
      (x :: xs).getD (argmaxIdx (x :: xs)) 0 = xs.foldl max x := by
  have h := argmaxAux_spec xs [x] 0 x (by simp) (by simp)
  simpa [argmaxIdx] using h

lemma foldl_max_le_init (xs : List ℚ) : ∀ b : ℚ, b ≤ xs.foldl max b := by
  induction xs with
  | nil => intro b; exact le_rfl
  | cons x xs ih =>
    intro b
    rw [List.foldl_cons]
    exact le_trans (le_max_left b x) (ih _)

lemma mem_le_foldl_max (xs : List ℚ) : ∀ (b p : ℚ), p ∈ xs → p ≤ xs.foldl max b := by
  induction xs with
  | nil => intro b p h; cases h
  | cons x xs ih =>
    intro b p h
    rw [List.foldl_cons]
    rcases List.mem_cons.mp h with rfl | h'
    · exact le_trans (le_max_right b p) (foldl_max_le_init xs _)
    · exact ih _ p h'

/-- A concrete engine for witnesses: the OpenCV fallback configuration
with no cascade hits, no loaded model, and the cosine oracle instantiated
by the plain dot product (the exact cosine value on the unit vectors the
witnesses use). -/
def E_w : Engine :=
  { detector := none, haar := fun _ => Except.ok [], resize_norm := id,
    facenet_model := none, cosine := dotProduct, np_random_draw := [] }

/-- A concrete detected face with detector confidence 0.95. -/
def face0 : Face :=
  { bbox := ⟨0, 0, 1, 1⟩, confidence := 19 / 20, landmarks := [] }

/-- Gallery entry whose embedding equals the witness query. -/
def alice1 : KnownFace :=
  { name := "Alice", embedding := [1, 0], face_id := "a1" }

/-- Gallery entry orthogonal to the witness query. -/
def bob1 : KnownFace :=
  { name := "Bob", embedding := [0, 1], face_id := "b1" }

/-- Gallery entry with a three-dimensional embedding, mismatching the
two-dimensional witness query. -/
def badKF : KnownFace :=
  { name := "Bad", embedding := [1, 2, 3], face_id := "x" }

/-- A one-pixel image. -/
def img1 : Image := [[(1, 1, 1)]]

/-- The bounding box covering all of `img1`. -/
def box1 : BBox := ⟨0, 0, 1, 1⟩

/-- C2.  The claim is the spec's intent; the code violates it: when
`self.facenet_model` is `None`, `extract_face_embedding` returns
`np.random.rand(128)` — the output is exactly the hidden random draw,
fabricated independently of the image, so two calls on the identical
image and bounding box made at different generator states return
different vectors. -/
theorem claim_C2 (E E' : Engine) (img : Image) (b : BBox)
    (hm : E.facenet_model = none) (hm' : E'.facenet_model = none)
    (hcrop : cropSize (cropImage img b) ≠ 0)
    (hdraw : E.np_random_draw ≠ E'.np_random_draw) :
    extract_face_embedding E img b = some E.np_random_draw ∧
      extract_face_embedding E img b ≠ extract_face_embedding E' img b := by
  have h1 : extract_face_embedding E img b = some E.np_random_draw := by
    simp only [extract_face_embedding, if_neg hcrop, hm]
  have h2 : extract_face_embedding E' img b = some E'.np_random_draw := by
    simp only [extract_face_embedding, if_neg hcrop, hm']
  refine ⟨h1, ?_⟩
  rw [h1, h2]
  simpa using hdraw

/-- Engine with the loaded-model flag off and random draw `[1]`. -/
def E_rngA : Engine :=
  { detector := none, haar := fun _ => Except.ok [], resize_norm := id,
    facenet_model := none, cosine := dotProduct, np_random_draw := [1] }

/-- Same engine at a different hidden generator state. -/
def E_rngB : Engine := { E_rngA with np_random_draw := [2] }

/-- Witness for C2 at a concrete image, box and pair of generator
states. -/
theorem claim_C2_witness :
    extract_face_embedding E_rngA img1 box1 = some [1] ∧
      extract_face_embedding E_rngA img1 box1 ≠ extract_face_embedding E_rngB img1 box1 :=
  claim_C2 E_rngA E_rngB img1 box1 rfl rfl (by decide) (by norm_num [E_rngA, E_rngB])

/-- C3.  The claim is the spec's intent; the code violates it: an
undecodable upload makes `preprocess_image` raise, but the `/recognize`
route catches the exception and substitutes `simulate_recognition()`
output, so the caller never sees an explicit failure; and `detect_faces`
itself catches any detector error and returns the empty list,
indistinguishable from a frame with no faces. -/
theorem claim_C3 (decode : Bytes → Option Image) (bytes : Bytes)
    (hdec : decode bytes = none) (E : Engine) (sim : List RecognizedFace)
    (known : List KnownFace) (θ : ℚ) (E' : Engine) (img : Image)
    (hdet : E'.detector = some (fun _ => Except.error "error")) :
    recognize_route decode E sim bytes known θ = sim ∧ detect_faces E' img = [] := by
  constructor
  · simp only [recognize_route, preprocess_image, hdec]
  · simp only [detect_faces, hdet]

/-- Witness for C3: a decoder that rejects the input, and an engine whose
detector raises. -/
theorem claim_C3_witness :
    recognize_route (fun _ => none) E_w [] [0] [] (6 / 10) = [] ∧
      detect_faces { E_w with detector := some (fun _ => Except.error "error") } [] = [] :=
  claim_C3 (fun _ => none) [0] rfl E_w [] [] (6 / 10)
    { E_w with detector := some (fun _ => Except.error "error") } [] rfl

/-- C5.  The recognition loop processes detections in detector order,
omits exactly those faces whose embedding extraction fails, and keeps the
relative order of the survivors: the result is the order-preserving map
over the embedding-successful detections, and its length is at most the
number of detections. -/
theorem claim_C5 (E : Engine) (img : Image) (known : List KnownFace) (th : Option ℚ) :
    recognize_faces E img known th =
      ((detect_faces E img).filter (fun f => (extract_face_embedding E img f.bbox).isSome)).map
        (fun f => matchFace E (th.getD E.threshold)
          ((extract_face_embedding E img f.bbox).getD []) known f) ∧
      (recognize_faces E img known th).length ≤ (detect_faces E img).length := by
  have h : recognize_faces E img known th =
      ((detect_faces E img).filter (fun f => (extract_face_embedding E img f.bbox).isSome)).map
        (fun f => matchFace E (th.getD E.threshold)
          ((extract_face_embedding E img f.bbox).getD []) known f) := by
    simp only [recognize_faces]
    rw [recognize_loop_eq E img known (th.getD E.threshold) (detect_faces E img) [],
      List.nil_append]
  refine ⟨h, ?_⟩
  rw [h, List.length_map]
  exact List.length_filter_le _ _

/-- C6.  The engine's `add_face` does raise
`ValueError("No faces detected in the image")` on zero detections, and
with detections present it builds the entry from the first one; but the
claim's "gallery is left unchanged" is violated by the in-repo `/faces`
route: it catches that error and still appends a fabricated record with
embedding `[0.1] * 512` to the gallery storage, so a zero-detection
enrollment grows the gallery by one dummy entry. -/
theorem claim_C6 (E : Engine) (decode : Bytes → Option Image) (bytes : Bytes)
    (img : Image) (name : String) (storage : List StoredFace)
    (save_path ts : String) (hdec : decode bytes = some img) :
    (detect_faces E img = [] →
      add_face E img name = Except.error "No faces detected in the image" ∧
        add_face_route E decode save_path ts bytes name storage =
          storage ++ [{ name := name, embedding := List.replicate 512 (1 / 10),
                        image_path := "uploads/" ++ name ++ "_" ++ ts ++ ".jpg" }]) ∧
      (∀ f fs, detect_faces E img = f :: fs →
        ∀ fd, add_face E img name = Except.ok fd →
          fd.bbox = f.bbox ∧ fd.confidence = f.confidence ∧
            extract_face_embedding E img f.bbox = some fd.embedding) := by
  constructor
  · intro h
    have he : add_face E img name = Except.error "No faces detected in the image" := by
      simp only [add_face, h]
    refine ⟨he, ?_⟩
    simp only [add_face_route, preprocess_image, hdec, he]
  · intro f fs h fd hfd
    simp only [add_face, h] at hfd
    cases hx : extract_face_embedding E img f.bbox with
    | none =>
      rw [hx] at hfd
      exact absurd hfd (fun hc => Except.noConfusion hc)
    | some emb =>
      simp only [hx, Except.ok.injEq] at hfd
      subst hfd
      refine ⟨rfl, rfl, ?_⟩
      simp

/-- Engine whose detector reports no faces. -/
def E_nf : Engine :=
  { detector := some (fun _ => Except.ok []), haar := fun _ => Except.ok [],
    resize_norm := id, facenet_model := none, cosine := dotProduct,
    np_random_draw := [] }

/-- Witness for C6 at a zero-detection upload and an initially empty
storage: the engine raises, yet the route leaves one dummy record. -/
theorem claim_C6_witness :
    add_face E_nf [] "Dana" = Except.error "No faces detected in the image" ∧
      add_face_route E_nf (fun _ => some []) "p" "t" [0] "Dana" [] =
        [{ name := "Dana", embedding := List.replicate 512 (1 / 10),
           image_path := "uploads/" ++ "Dana" ++ "_" ++ "t" ++ ".jpg" }] :=
  (claim_C6 E_nf (fun _ => some []) [0] [] "Dana" [] "p" "t" rfl).1 rfl

/-- C7.  Matching against an empty gallery always yields "Unknown",
whatever the threshold: the scan never runs, so no best match exists,
and every face of the frame is reported as "Unknown". -/
theorem claim_C7 (E : Engine) (θ : ℚ) (q : List ℚ) (face : Face) (img : Image)
    (th : Option ℚ) :
    matchFace E θ q [] face =
        { name := "Unknown", confidence := face.confidence,
          bounding_box := face.bbox, face_id := none } ∧
      (recognize_faces E img [] th).all (fun r => r.name == "Unknown") = true := by
  constructor
  · rfl
  · simp only [recognize_faces]
    rw [recognize_loop_eq E img [] (th.getD E.threshold) (detect_faces E img) [],
      List.nil_append, List.all_eq_true]
    intro r hr
    obtain ⟨f, hf, rfl⟩ := List.mem_map.mp hr
    simp [matchFace]

/-- C8.  A gallery entry whose embedding dimension differs from the
query's cannot crash the scan and cannot affect its outcome: sklearn's
raise is caught inside `calculate_similarity` and becomes similarity
`0.0`, which never beats the running best (initialised at `0.0`), so the
scan result equals the scan over the gallery without that entry and the
remaining entries are still processed. -/
theorem claim_C8 (E : Engine) (θ : ℚ) (q : List ℚ) (face : Face)
    (g1 g2 : List KnownFace) (bad : KnownFace)
    (hdim : bad.embedding.length ≠ q.length) :
    matchFace E θ q (g1 ++ bad :: g2) face = matchFace E θ q (g1 ++ g2) face := by
  simp only [matchFace]
  rw [List.foldl_append, List.foldl_cons, List.foldl_append]
  have hst : (0 : ℚ) ≤ (g1.foldl (scanStep E θ q) (none, 0)).2 :=
    scan_snd_le E θ q g1 (none, 0)
  have hbad : scanStep E θ q (g1.foldl (scanStep E θ q) (none, 0)) bad
      = g1.foldl (scanStep E θ q) (none, 0) := by
    rw [scanStep_eq, if_neg]
    rintro ⟨hne, hgt, hθ'⟩
    have hz : entrySim E q bad = 0 := by
      simp only [entrySim, calculate_similarity]
      rw [if_neg (fun hc => hdim hc.symm)]
    rw [hz] at hgt
    exact absurd hst (not_le.mpr hgt)
  rw [hbad]

/-- Witness for C8: the mismatched entry sits after a matching one and
changes nothing. -/
theorem claim_C8_witness :
    matchFace E_w (6 / 10) [1, 0] [alice1, badKF] face0
      = matchFace E_w (6 / 10) [1, 0] [alice1] face0 := by
  have h := claim_C8 E_w (6 / 10) [1, 0] face0 [alice1] [] badKF (by decide)
  simpa using h

/-- C9.  Every face returned by `detect_faces` carries confidence
strictly above 0.9: the MTCNN branch filters on
`detection['confidence'] > 0.9` and the Haar fallback assigns the
constant 0.95. -/
theorem claim_C9 (E : Engine) (img : Image) (d : Face)
    (hd : d ∈ detect_faces E img) : d.confidence > 9 / 10 := by
  unfold detect_faces at hd
  rcases hdet : E.detector with _ | det
  · simp only [hdet] at hd
    rcases hh : E.haar img with e | rects
    · simp only [hh] at hd
      cases hd
    · simp only [hh] at hd
      obtain ⟨r, hr, rfl⟩ := List.mem_map.mp hd
      norm_num
  · simp only [hdet] at hd
    rcases hdi : det img with e | dets
    · simp only [hdi] at hd
      cases hd
    · simp only [hdi] at hd
      obtain ⟨a, ha, rfl⟩ := List.mem_map.mp hd
      have hp := List.of_mem_filter ha
      simpa using hp

/-- Engine in the Haar fallback configuration with one cascade hit. -/
def E_haar1 : Engine :=
  { detector := none, haar := fun _ => Except.ok [(0, 0, 2, 2)], resize_norm := id,
    facenet_model := none, cosine := dotProduct, np_random_draw := [] }

/-- Witness for C9 at a concrete cascade detection. -/
theorem claim_C9_witness :
    ({ bbox := ⟨0, 0, 2, 2⟩, confidence := 95 / 100, landmarks := [] } : Face).confidence
      > 9 / 10 :=
  claim_C9 E_haar1 [] _ (by simp [detect_faces, E_haar1])

/-- C10.  Any result whose identity is not "Unknown" was produced by the
scan's match branch, whose guard requires similarity strictly above the
threshold in force for the call; its confidence is that similarity. -/
theorem claim_C10 (E : Engine) (img : Image) (known : List KnownFace)
    (th : Option ℚ) (r : RecognizedFace)
    (hr : r ∈ recognize_faces E img known th)
    (hn : r.name ≠ "Unknown") :
    r.confidence > th.getD E.threshold := by
  simp only [recognize_faces] at hr
  rw [recognize_loop_eq E img known (th.getD E.threshold) (detect_faces E img) [],
    List.nil_append] at hr
  obtain ⟨f, hf, rfl⟩ := List.mem_map.mp hr
  exact matchFace_gt E (th.getD E.threshold) _ known f hn

/-- Engine running the whole pipeline via the Haar fallback with a
loaded embedding model. -/
def E_pipe : Engine :=
  { detector := none, haar := fun _ => Except.ok [(0, 0, 1, 1)], resize_norm := id,
    facenet_model := some (fun _ => [1, 0]), cosine := dotProduct,
    np_random_draw := [] }

/-- Witness for C10 on a full concrete pipeline run: the matched result
for Alice has confidence 1, above the default threshold 0.6. -/
theorem claim_C10_witness :
    ({ name := "Alice", confidence := 1, bounding_box := ⟨0, 0, 1, 1⟩,
        face_id := some "a1" } : RecognizedFace).confidence
      > (none : Option ℚ).getD E_pipe.threshold := by
  refine claim_C10 E_pipe img1 [alice1] none _ ?_ (by decide)
  have h : recognize_faces E_pipe img1 [alice1] none
      = [{ name := "Alice", confidence := 1, bounding_box := ⟨0, 0, 1, 1⟩,
           face_id := some "a1" }] := by
    norm_num [recognize_faces, detect_faces, extract_face_embedding, cropImage, cropSize,
      matchFace, scanStep, calculate_similarity, dotProduct, E_pipe, img1, alice1,
      List.cons_ne_nil]
  rw [h]
  exact List.mem_singleton.mpr rfl

/-- C1 as written fails on the code: the scan's running best similarity
is initialised to 0.0, so with the caller-supplied threshold -1 and a
single gallery entry at similarity 0 (orthogonal unit vectors), the best
similarity 0 is strictly greater than the threshold, yet the matcher
returns "Unknown" with the detector's confidence instead of that entry's
identity with confidence 0. -/
theorem claim_C1_counterexample :
    matchFace E_w (-1) [1, 0] [bob1] face0
        = { name := "Unknown", confidence := 19 / 20,
            bounding_box := ⟨0, 0, 1, 1⟩, face_id := none } ∧
      entrySim E_w [1, 0] bob1 = 0 ∧ ((0 : ℚ) > -1) ∧ bob1.name ≠ "Unknown" := by
  refine ⟨?_, ?_, by norm_num, by decide⟩
  · norm_num [matchFace, scanStep, calculate_similarity, dotProduct, E_w, bob1, face0,
      List.cons_ne_nil]
  · norm_num [entrySim, calculate_similarity, dotProduct, E_w, bob1]

/-- C1 amended: the matcher selects the gallery entry with the strictly
highest similarity; if that best similarity is strictly greater than both
the threshold and 0 (the running best starts at 0.0, so non-positive
similarities never match), it returns that entry's identity with
confidence equal to the similarity; otherwise it returns "Unknown" with
confidence equal to the detector's confidence for the face. -/
theorem claim_C1 (E : Engine) (θ : ℚ) (q : List ℚ) (face : Face)
    (g1 g2 : List KnownFace) (ε : KnownFace)
    (hne : ε.embedding ≠ [])
    (h1 : ∀ kf ∈ g1, entrySim E q kf < entrySim E q ε)
    (h2 : ∀ kf ∈ g2, entrySim E q kf < entrySim E q ε) :
    (entrySim E q ε > θ ∧ entrySim E q ε > 0 →
      matchFace E θ q (g1 ++ ε :: g2) face =
        { name := ε.name, confidence := entrySim E q ε,
          bounding_box := face.bbox, face_id := some ε.face_id }) ∧
      (entrySim E q ε ≤ θ ∨ entrySim E q ε ≤ 0 →
        matchFace E θ q (g1 ++ ε :: g2) face =
          { name := "Unknown", confidence := face.confidence,
            bounding_box := face.bbox, face_id := none }) := by
  constructor
  · rintro ⟨hθ, h0⟩
    simp only [matchFace]
    rw [scan_selects E θ q g1 g2 ε hne h1 h2 hθ h0]
  · intro hlow
    simp only [matchFace]
    rw [scan_below E θ q (g1 ++ ε :: g2) ?_]
    intro kf hk
    rcases List.mem_append.mp hk with hk1 | hk2
    · rcases hlow with h | h
      · exact Or.inl (le_of_lt (lt_of_lt_of_le (h1 kf hk1) h))
      · exact Or.inr (le_of_lt (lt_of_lt_of_le (h1 kf hk1) h))
    · rcases List.mem_cons.mp hk2 with rfl | hk2'
      · exact hlow
      · rcases hlow with h | h
        · exact Or.inl (le_of_lt (lt_of_lt_of_le (h2 kf hk2') h))
        · exact Or.inr (le_of_lt (lt_of_lt_of_le (h2 kf hk2') h))

/-- Witness for the amended C1: Alice at similarity 1 beats Bob at
similarity 0 and clears the threshold 0.6, so the scan reports Alice with
confidence 1. -/
theorem claim_C1_witness :
    matchFace E_w (6 / 10) [1, 0] [alice1, bob1] face0
      = { name := "Alice", confidence := 1,
          bounding_box := ⟨0, 0, 1, 1⟩, face_id := some "a1" } := by
  have hs : entrySim E_w [1, 0] alice1 = 1 := by
    norm_num [entrySim, calculate_similarity, dotProduct, E_w, alice1]
  have h := (claim_C1 E_w (6 / 10) [1, 0] face0 [] [bob1] alice1
      (by decide)
      (by intro kf hk; cases hk)
      (by
        intro kf hk
        rcases List.mem_cons.mp hk with rfl | hk'
        · rw [hs]
          norm_num [entrySim, calculate_similarity, dotProduct, E_w, bob1]
        · cases hk')).1
      (by rw [hs]; norm_num)
  rw [hs] at h
  simpa [alice1, face0] using h

/-- C4.  The classifier matcher reports as confidence the maximum
predicted probability (an upper bound of every class probability); a
maximum strictly below the 0.5 threshold yields "Unknown", and a maximum
greater than or equal to the threshold — the boundary case included —
yields the label-encoder identity for the argmax index (decorated with
the formatted probability, as the source's f-string does). -/
theorem claim_C4 (fmt : ℚ → String) (labels : List String) (probs : List ℚ) :
    (∀ p ∈ probs, p ≤ (classify_face fmt labels probs).2) ∧
      ((classify_face fmt labels probs).2 < 1 / 2 →
        (classify_face fmt labels probs).1 = "Unknown") ∧
      (1 / 2 ≤ (classify_face fmt labels probs).2 →
        (classify_face fmt labels probs).1 =
          labels.getD (argmaxIdx probs) "" ++ " ("
            ++ fmt ((classify_face fmt labels probs).2) ++ ")") ∧
      (classify_face fmt labels probs).2 = probs.getD (argmaxIdx probs) 0 := by
  refine ⟨?_, ?_, ?_, rfl⟩
  · intro p hp
    cases probs with
    | nil => cases hp
    | cons x xs =>
      have hv : (classify_face fmt labels (x :: xs)).2 = xs.foldl max x := by
        have h := (argmaxIdx_spec x xs).2
        simpa [classify_face] using h
      rw [hv]
      rcases List.mem_cons.mp hp with rfl | hp'
      · exact foldl_max_le_init xs p
      · exact mem_le_foldl_max xs x p hp'
  · intro h
    have h' : probs.getD (argmaxIdx probs) 0 < 1 / 2 := h
    simp only [classify_face, if_pos h']
  · intro h
    have h' : ¬ probs.getD (argmaxIdx probs) 0 < 1 / 2 := not_lt.mpr h
    simp only [classify_face, if_neg h']

/-- Witness for C4 at the spec's boundary scenario: probabilities
0.49 and 0.51 with threshold 0.5 still select "Bob", with confidence
0.51 bounding 0.49. -/
theorem claim_C4_witness :
    (49 : ℚ) / 100 ≤ (classify_face (fun _ => "0.51") ["Alice", "Bob"] [49 / 100, 51 / 100]).2 ∧
      (classify_face (fun _ => "0.51") ["Alice", "Bob"] [49 / 100, 51 / 100]).1 = "Bob (0.51)" ∧
      (classify_face (fun _ => "0.51") ["Alice", "Bob"] [49 / 100, 51 / 100]).2 = 51 / 100 := by
  have h := claim_C4 (fun _ => "0.51") ["Alice", "Bob"] [(49 : ℚ) / 100, 51 / 100]
  refine ⟨h.1 _ (by simp), ?_, ?_⟩
  · have h3 := h.2.2.1 (by norm_num [classify_face, argmaxIdx, argmaxAux])
    rw [h3]
    norm_num [classify_face, argmaxIdx, argmaxAux]
    decide
  · norm_num [classify_face, argmaxIdx, argmaxAux]

end FaceRec
